import Mathlib

/-!
Verification of the particle-field animation engine in
`src/components/AnimatedBackground.tsx`.  The file contains two variants of
the component (an earlier and a later revision); definitions suffixed `1`
embed the first variant (lines 1-197, time-scaled velocities), definitions
suffixed `2` embed the second variant (lines 197-389, per-frame pixel
velocities).  Positions, velocities and bounds are modelled as exact
rationals; canvas backing dimensions (`canvas.width`, `canvas.height`,
produced by `Math.floor`) are naturals.
-/

namespace AnimatedBackground

/-- The cosmetic shape tag of a node (first variant only; the second variant
has no `shape` field and no operation of either variant reads it). -/
inductive Shape where
  | circle
  | triangle
  | square
deriving DecidableEq, Repr

/-- A particle (`Node` in the source): position `(x, y)`, velocity
`(vx, vy)`, the always-empty `connections` array, and the shape tag.
The extra `id` field is not a source field: it is an allocation tag
modelling JavaScript object identity (each object created by
`nodesRef.current.push({...})` is a fresh heap object), used to state that a
regenerated array shares no object with the previous one. -/
structure Node where
  id : ℕ
  x : ℚ
  y : ℚ
  vx : ℚ
  vy : ℚ
  connections : List ℕ
  shape : Shape
deriving DecidableEq, Repr

/-- The configuration signals read once per mount: the accessibility
reduced-motion preference and the derived device tier
(`isMobileMode = isSmallScreen || isLowPower`; constrained tier when true). -/
structure Cfg where
  prefersReducedMotion : Bool
  isMobileMode : Bool
deriving DecidableEq, Repr

/-- `Math.max(0, Math.min(hi, v))`, the clamp applied to each coordinate at
the end of every update step. -/
def clamp (hi v : ℚ) : ℚ := max 0 (min hi v)

/-- One particle's update in the first variant's `updateNodes` (source lines
72-83): advance by `v * dt`, sign-flip a velocity component when the new
coordinate lies outside `[0, bound]`, then clamp the coordinate into range. -/
def updateNode1 (w h dt : ℚ) (n : Node) : Node :=
  { n with
    x := clamp w (n.x + n.vx * dt)
    y := clamp h (n.y + n.vy * dt)
    vx := if n.x + n.vx * dt < 0 ∨ n.x + n.vx * dt > w then -n.vx else n.vx
    vy := if n.y + n.vy * dt < 0 ∨ n.y + n.vy * dt > h then -n.vy else n.vy }

/-- One particle's update in the second variant's `updateNodes` (source lines
259-270): identical except the velocity is a per-frame pixel delta, not
scaled by elapsed time. -/
def updateNode2 (w h : ℚ) (n : Node) : Node :=
  { n with
    x := clamp w (n.x + n.vx)
    y := clamp h (n.y + n.vy)
    vx := if n.x + n.vx < 0 ∨ n.x + n.vx > w then -n.vx else n.vx
    vy := if n.y + n.vy < 0 ∨ n.y + n.vy > h then -n.vy else n.vy }

/-- `updateNodes` of the first variant over the whole particle array
(the source's in-place `forEach` mutation, embedded as a map). -/
def updateNodes1 (w h dt : ℚ) (ns : List Node) : List Node :=
  ns.map (updateNode1 w h dt)

/-- `updateNodes` of the second variant over the whole particle array. -/
def updateNodes2 (w h : ℚ) (ns : List Node) : List Node :=
  ns.map (updateNode2 w h)

lemma clamp_nonneg (hi v : ℚ) : 0 ≤ clamp hi v := le_max_left 0 _

lemma clamp_le (hi v : ℚ) (hhi : 0 ≤ hi) : clamp hi v ≤ hi :=
  max_le hhi (min_le_left hi v)

lemma updateNode1_x (w h dt : ℚ) (n : Node) :
    (updateNode1 w h dt n).x = clamp w (n.x + n.vx * dt) := rfl

lemma updateNode1_y (w h dt : ℚ) (n : Node) :
    (updateNode1 w h dt n).y = clamp h (n.y + n.vy * dt) := rfl

lemma updateNode1_vx (w h dt : ℚ) (n : Node) :
    (updateNode1 w h dt n).vx =
      if n.x + n.vx * dt < 0 ∨ n.x + n.vx * dt > w then -n.vx else n.vx := rfl

lemma updateNode2_x (w h : ℚ) (n : Node) :
    (updateNode2 w h n).x = clamp w (n.x + n.vx) := rfl

lemma updateNode2_y (w h : ℚ) (n : Node) :
    (updateNode2 w h n).y = clamp h (n.y + n.vy) := rfl

lemma updateNode2_vx (w h : ℚ) (n : Node) :
    (updateNode2 w h n).vx =
      if n.x + n.vx < 0 ∨ n.x + n.vx > w then -n.vx else n.vx := rfl

/-- C1: for every particle and every execution of the per-frame update step
(`updateNodes`, in both variants), the particle's position after the step
satisfies `0 ≤ x ≤ canvasWidth` and `0 ≤ y ≤ canvasHeight`, for any starting
position and velocity (the canvas dimensions, being `Math.floor` of
nonnegative products, are assumed nonnegative). -/
theorem boundary_invariant (w h : ℚ) (hw : 0 ≤ w) (hh : 0 ≤ h)
    (dt : ℚ) (n : Node) :
    (0 ≤ (updateNode1 w h dt n).x ∧ (updateNode1 w h dt n).x ≤ w ∧
     0 ≤ (updateNode1 w h dt n).y ∧ (updateNode1 w h dt n).y ≤ h) ∧
    (0 ≤ (updateNode2 w h n).x ∧ (updateNode2 w h n).x ≤ w ∧
     0 ≤ (updateNode2 w h n).y ∧ (updateNode2 w h n).y ≤ h) := by
  refine ⟨⟨?_, ?_, ?_, ?_⟩, ⟨?_, ?_, ?_, ?_⟩⟩
  · rw [updateNode1_x]; exact clamp_nonneg _ _
  · rw [updateNode1_x]; exact clamp_le _ _ hw
  · rw [updateNode1_y]; exact clamp_nonneg _ _
  · rw [updateNode1_y]; exact clamp_le _ _ hh
  · rw [updateNode2_x]; exact clamp_nonneg _ _
  · rw [updateNode2_x]; exact clamp_le _ _ hw
  · rw [updateNode2_y]; exact clamp_nonneg _ _
  · rw [updateNode2_y]; exact clamp_le _ _ hh

/-- Witness for C1 at a concrete bound and particle. -/
theorem boundary_invariant_witness :
    (0 : ℚ) ≤ 640 ∧ (0 : ℚ) ≤ 480 ∧
    ((0 ≤ (updateNode1 640 480 (1/60) ⟨0, 5, 5, 300, -900, [], Shape.circle⟩).x ∧
      (updateNode1 640 480 (1/60) ⟨0, 5, 5, 300, -900, [], Shape.circle⟩).x ≤ 640 ∧
      0 ≤ (updateNode1 640 480 (1/60) ⟨0, 5, 5, 300, -900, [], Shape.circle⟩).y ∧
      (updateNode1 640 480 (1/60) ⟨0, 5, 5, 300, -900, [], Shape.circle⟩).y ≤ 480) ∧
     (0 ≤ (updateNode2 640 480 ⟨0, 5, 5, 300, -900, [], Shape.circle⟩).x ∧
      (updateNode2 640 480 ⟨0, 5, 5, 300, -900, [], Shape.circle⟩).x ≤ 640 ∧
      0 ≤ (updateNode2 640 480 ⟨0, 5, 5, 300, -900, [], Shape.circle⟩).y ∧
      (updateNode2 640 480 ⟨0, 5, 5, 300, -900, [], Shape.circle⟩).y ≤ 480)) :=
  ⟨by norm_num, by norm_num,
   boundary_invariant 640 480 (by norm_num) (by norm_num) (1/60)
     ⟨0, 5, 5, 300, -900, [], Shape.circle⟩⟩

/-- C2: a particle at `x = width - 1` with `vx = +5` whose integration step
moves it to `x = width + 4` (outside the right boundary) leaves the update
step with `vx = -5` and `x` clamped to exactly `width` — in both variants
(in the first, with the unit time step that realises the stated +5 move). -/
theorem reflection_correctness (w h : ℚ) (hw : 0 ≤ w)
    (y vy : ℚ) (i : ℕ) (c : List ℕ) (s : Shape) :
    (updateNode1 w h 1 ⟨i, w - 1, y, 5, vy, c, s⟩).vx = -5 ∧
    (updateNode1 w h 1 ⟨i, w - 1, y, 5, vy, c, s⟩).x = w ∧
    (updateNode2 w h ⟨i, w - 1, y, 5, vy, c, s⟩).vx = -5 ∧
    (updateNode2 w h ⟨i, w - 1, y, 5, vy, c, s⟩).x = w := by
  have hx1 : (w - 1) + 5 * (1 : ℚ) = w + 4 := by ring
  have hx2 : (w - 1) + 5 = w + 4 := by ring
  have hgt : w + 4 > w := by linarith
  have hclamp : clamp w (w + 4) = w := by
    unfold clamp
    rw [min_eq_left (by linarith), max_eq_right hw]
  refine ⟨?_, ?_, ?_, ?_⟩ <;>
    simp only [updateNode1_x, updateNode1_vx, updateNode2_x, updateNode2_vx] <;>
    simp [hx1, hx2, hgt, hclamp]

/-- Witness for C2 at `width = 100`. -/
theorem reflection_correctness_witness :
    (0 : ℚ) ≤ 100 ∧
    ((updateNode1 100 50 1 ⟨0, 100 - 1, 7, 5, 2, [], Shape.square⟩).vx = -5 ∧
     (updateNode1 100 50 1 ⟨0, 100 - 1, 7, 5, 2, [], Shape.square⟩).x = 100 ∧
     (updateNode2 100 50 ⟨0, 100 - 1, 7, 5, 2, [], Shape.square⟩).vx = -5 ∧
     (updateNode2 100 50 ⟨0, 100 - 1, 7, 5, 2, [], Shape.square⟩).x = 100) :=
  ⟨by norm_num,
   reflection_correctness 100 50 (by norm_num) 7 2 0 [] Shape.square⟩

/-- `baseCount` of the first variant's `createNodes` (source line 48):
`Math.min(240, Math.floor((canvas.width * canvas.height) / 8500))`.
`canvas.width`/`canvas.height` are naturals, so the floor of the quotient is
natural division. -/
def baseCount1 (w h : ℕ) : ℕ := min 240 (w * h / 8500)

/-- `maxForSmallScreens` of the first variant (source line 49):
`isMobileMode ? 32 : 180`. -/
def maxForSmallScreens1 (isMobileMode : Bool) : ℕ :=
  if isMobileMode then 32 else 180

/-- `nodeCount` of the first variant (source line 50):
`Math.min(maxForSmallScreens, baseCount)`. -/
def nodeCount1 (isMobileMode : Bool) (w h : ℕ) : ℕ :=
  min (maxForSmallScreens1 isMobileMode) (baseCount1 w h)

/-- `baseCount` of the second variant's `createNodes` (source line 242):
`Math.min(220, Math.floor((canvas.width * canvas.height) / 11000))`. -/
def baseCount2 (w h : ℕ) : ℕ := min 220 (w * h / 11000)

/-- `maxForSmallScreens` of the second variant (source line 243):
`isMobileMode ? 26 : 160`. -/
def maxForSmallScreens2 (isMobileMode : Bool) : ℕ :=
  if isMobileMode then 26 else 160

/-- `nodeCount` of the second variant (source line 244). -/
def nodeCount2 (isMobileMode : Bool) (w h : ℕ) : ℕ :=
  min (maxForSmallScreens2 isMobileMode) (baseCount2 w h)

/-- C4: for every constrained-tier device and every surface, the particle
count of `createNodes` equals `min(tierCeiling, floor(area / divisor))`
(ceiling 32, divisor 8500 in the first variant; 26 and 11000 in the second),
and in particular never exceeds the constrained-tier ceiling. -/
theorem constrained_count_ceiling (w h : ℕ) :
    nodeCount1 true w h = min 32 (w * h / 8500) ∧
    nodeCount1 true w h ≤ 32 ∧
    nodeCount2 true w h = min 26 (w * h / 11000) ∧
    nodeCount2 true w h ≤ 26 := by
  simp only [nodeCount1, nodeCount2, baseCount1, baseCount2,
    maxForSmallScreens1, maxForSmallScreens2, if_pos]
  omega

/-- Counterexample to C5: both tiers use the same density divisor, so at
equal surface area (here 1000 × 85 for the first variant, 1100 × 100 for
the second) the generated counts are equal — the constrained tier's
area-proportional count is not smaller than the standard tier's. -/
theorem tier_divisor_counterexample :
    nodeCount1 true 1000 85 = nodeCount1 false 1000 85 ∧
    nodeCount1 true 1000 85 = 10 ∧
    baseCount1 1000 85 = 10 ∧
    nodeCount2 true 1100 100 = nodeCount2 false 1100 100 ∧
    nodeCount2 true 1100 100 = 10 ∧
    baseCount2 1100 100 = 10 := by
  refine ⟨?_, ?_, ?_, ?_, ?_, ?_⟩ <;> decide

/-- C5 as amended: the area-proportional formula uses the same density
divisor for both tiers (8500 in the first variant, 11000 in the second);
the constrained tier is sparser only through its strictly lower hard
ceiling (32 < 180, 26 < 160), so at equal surface area its count is at most
— not strictly below — the standard tier's. -/
theorem tier_same_divisor_lower_ceiling (w h : ℕ) :
    nodeCount1 true w h = min 32 (w * h / 8500) ∧
    nodeCount1 false w h = min 180 (w * h / 8500) ∧
    nodeCount1 true w h ≤ nodeCount1 false w h ∧
    maxForSmallScreens1 true < maxForSmallScreens1 false ∧
    nodeCount2 true w h = min 26 (w * h / 11000) ∧
    nodeCount2 false w h = min 160 (w * h / 11000) ∧
    nodeCount2 true w h ≤ nodeCount2 false w h ∧
    maxForSmallScreens2 true < maxForSmallScreens2 false := by
  simp only [nodeCount1, nodeCount2, baseCount1, baseCount2,
    maxForSmallScreens1, maxForSmallScreens2]
  norm_num
  omega

/-- A canvas drawing operation emitted by one animation frame.  A `stroke`
records the endpoints and the squared Euclidean distance of the connected
pair (the source compares `Math.sqrt(dx*dx + dy*dy) < maxDistance`, which
for the nonnegative threshold is equivalent to the squared comparison
embedded below; the per-line opacity and width, functions of the real
distance, are modelled by `opacity1`, `lineWidth1`, `opacity2`,
`lineWidth2`). -/
inductive DrawOp where
  | clearRect (w h : ℚ)
  | stroke (x1 y1 x2 y2 d2 : ℚ)
  | fillNode (x y : ℚ) (sh : Shape)
deriving DecidableEq, Repr

/-- Squared Euclidean distance `dx*dx + dy*dy` between two nodes
(source lines 94-96 and 281-283). -/
def dist2 (a b : Node) : ℚ := (a.x - b.x) * (a.x - b.x) + (a.y - b.y) * (a.y - b.y)

/-- The ordered pairs `(i, j)` with `i < j` visited by the nested loops of
`drawConnections` (source lines 90-91 and 277-278). -/
def allPairs : List Node → List (Node × Node)
  | [] => []
  | a :: rest => rest.map (fun b => (a, b)) ++ allPairs rest

/-- `drawConnections` of the first variant (source lines 85-108): return
with no stroke when `isMobileMode` or more than 120 nodes; otherwise stroke
every pair closer than `maxDistance = 220`. -/
def drawConnections1 (cfg : Cfg) (ns : List Node) : List DrawOp :=
  if cfg.isMobileMode then []
  else if ns.length > 120 then []
  else
    ((allPairs ns).filter (fun p => dist2 p.1 p.2 < 220 * 220)).map
      (fun p => DrawOp.stroke p.1.x p.1.y p.2.x p.2.y (dist2 p.1 p.2))

/-- `drawConnections` of the second variant (source lines 272-297): the same
gating, with `maxDistance = 200`. -/
def drawConnections2 (cfg : Cfg) (ns : List Node) : List DrawOp :=
  if cfg.isMobileMode then []
  else if ns.length > 120 then []
  else
    ((allPairs ns).filter (fun p => dist2 p.1 p.2 < 200 * 200)).map
      (fun p => DrawOp.stroke p.1.x p.1.y p.2.x p.2.y (dist2 p.1 p.2))

/-- The first variant's per-line opacity as a function of the pair's
Euclidean distance `d` (source line 98): `(1 - distance / 220) * 0.5`. -/
def opacity1 (d : ℚ) : ℚ := (1 - d / 220) * (1 / 2)

/-- The first variant's per-line width (source line 100): the constant
`1.5`, independent of the distance argument. -/
def lineWidth1 (d : ℚ) : ℚ := 3 / 2

/-- The second variant's per-line opacity (source lines 285-286):
`(1 - distance / 200) * 0.55`. -/
def opacity2 (d : ℚ) : ℚ := (1 - d / 200) * (55 / 100)

/-- The second variant's per-line width (source line 289):
`1.0 + (1 - distance / 200) * 0.6`. -/
def lineWidth2 (d : ℚ) : ℚ := 1 + (1 - d / 200) * (6 / 10)

/-- C6: `drawConnections` performs zero stroke operations whenever the
device tier is constrained or the particle count exceeds 120, in both
variants: the all-pairs scan is skipped and the result is empty. -/
theorem connection_gating (cfg : Cfg) (ns : List Node)
    (hgate : cfg.isMobileMode = true ∨ 120 < ns.length) :
    drawConnections1 cfg ns = [] ∧ drawConnections2 cfg ns = [] := by
  rcases hgate with hm | hlen
  · rw [drawConnections1, drawConnections2, if_pos hm, if_pos hm]
    exact ⟨rfl, rfl⟩
  · rw [drawConnections1, drawConnections2]
    rcases h : cfg.isMobileMode with _ | _
    · simp only [Bool.false_eq_true, if_false]
      rw [if_pos hlen, if_pos hlen]
      exact ⟨rfl, rfl⟩
    · exact ⟨rfl, rfl⟩

/-- Witness for C6 on a concrete constrained-tier configuration. -/
theorem connection_gating_witness :
    ((⟨false, true⟩ : Cfg).isMobileMode = true ∨
      120 < ([] : List Node).length) ∧
    (drawConnections1 ⟨false, true⟩ [] = [] ∧
     drawConnections2 ⟨false, true⟩ [] = []) :=
  ⟨Or.inl rfl, connection_gating ⟨false, true⟩ [] (Or.inl rfl)⟩

/-- Counterexample to C7: in the first variant the drawn line's width is the
constant `1.5`, so for the in-threshold distances 10 < 100 the farther pair
gets the same thickness, not a strictly smaller one. -/
theorem connection_width_counterexample :
    (0 : ℚ) ≤ 10 ∧ (10 : ℚ) < 100 ∧ (100 : ℚ) < 220 ∧
    lineWidth1 100 = lineWidth1 10 ∧
    ¬ lineWidth1 100 < lineWidth1 10 := by
  refine ⟨by norm_num, by norm_num, by norm_num, rfl, ?_⟩
  rw [lineWidth1, lineWidth1]
  exact lt_irrefl _

/-- C7 as amended: for distances below the link threshold, the line opacity
is a strictly decreasing linear function of the distance in both variants
(`1/2 - d/440` and `11/20 - 11d/4000`), and the line width is a strictly
decreasing linear function of the distance in the second variant
(`8/5 - 3d/1000`) but the constant `1.5` in the first. -/
theorem connection_proximity_scaling (d1 d2 : ℚ) (h0 : 0 ≤ d1)
    (h12 : d1 < d2) (hmax : d2 < 220) :
    opacity1 d2 < opacity1 d1 ∧
    opacity1 d1 = 1 / 2 - d1 / 440 ∧
    lineWidth1 d2 = lineWidth1 d1 ∧
    (d2 < 200 →
      opacity2 d2 < opacity2 d1 ∧
      opacity2 d1 = 11 / 20 - 11 * d1 / 4000 ∧
      lineWidth2 d2 < lineWidth2 d1 ∧
      lineWidth2 d1 = 8 / 5 - 3 * d1 / 1000) := by
  refine ⟨?_, ?_, rfl, fun _ => ⟨?_, ?_, ?_, ?_⟩⟩
  · rw [opacity1, opacity1]; linarith
  · rw [opacity1]; ring
  · rw [opacity2, opacity2]; linarith
  · rw [opacity2]; ring
  · rw [lineWidth2, lineWidth2]; linarith
  · rw [lineWidth2]; ring

/-- Witness for C7's amended theorem at distances 10 and 100. -/
theorem connection_proximity_scaling_witness :
    ((0 : ℚ) ≤ 10 ∧ (10 : ℚ) < 100 ∧ (100 : ℚ) < 220) ∧
    (opacity1 100 < opacity1 10 ∧
     opacity1 10 = 1 / 2 - 10 / 440 ∧
     lineWidth1 100 = lineWidth1 10 ∧
     ((100 : ℚ) < 200 →
       opacity2 100 < opacity2 10 ∧
       opacity2 10 = 11 / 20 - 11 * 10 / 4000 ∧
       lineWidth2 100 < lineWidth2 10 ∧
       lineWidth2 10 = 8 / 5 - 3 * 10 / 1000)) :=
  ⟨⟨by norm_num, by norm_num, by norm_num⟩,
   connection_proximity_scaling 10 100 (by norm_num) (by norm_num) (by norm_num)⟩

/-- `drawNodes` of the first variant (source lines 110-138): one glow fill
per particle, at the particle's position, silhouetted by its shape. -/
def drawNodes1 (ns : List Node) : List DrawOp :=
  ns.map (fun n => DrawOp.fillNode n.x n.y n.shape)

/-- One execution of the first variant's `animate` callback body (source
lines 141-154), minus the re-scheduling: clear the canvas, then — only when
the reduced-motion preference is off — update the particles and draw
connections and nodes.  `dt` stands for the already clamped frame delta
(`Math.min(Math.max((ts - last) / 1000, 0), 0.033) || 1/60`).  Returns the
particle array after the frame and the list of draw operations. -/
def animateFrame1 (cfg : Cfg) (w h : ℚ) (dt : ℚ) (ns : List Node) :
    List Node × List DrawOp :=
  if cfg.prefersReducedMotion then (ns, [DrawOp.clearRect w h])
  else
    (updateNodes1 w h dt ns,
     DrawOp.clearRect w h ::
       (drawConnections1 cfg (updateNodes1 w h dt ns) ++
        drawNodes1 (updateNodes1 w h dt ns)))

/-- The random draws consumed when creating one node: `Math.random()` and
the trigonometric functions are embedded as an oracle giving each node its
sampled position, velocity and shape (source lines 54-65). -/
structure NodeData where
  x : ℚ
  y : ℚ
  vx : ℚ
  vy : ℚ
  shape : Shape
deriving DecidableEq, Repr

/-- The first variant's `createNodes` (source lines 41-70): empty under
reduced motion, otherwise `nodeCount` fresh nodes with sampled fields and
an empty `connections` array.  `startId` is the allocation counter giving
each pushed object its fresh identity tag. -/
def createNodes1 (cfg : Cfg) (w h : ℕ) (sample : ℕ → NodeData)
    (startId : ℕ) : List Node :=
  if cfg.prefersReducedMotion then []
  else
    (List.range (nodeCount1 cfg.isMobileMode w h)).map
      (fun i =>
        { id := startId + i
          x := (sample i).x
          y := (sample i).y
          vx := (sample i).vx
          vy := (sample i).vy
          connections := []
          shape := (sample i).shape })

/-- The number of particles `createNodes` leaves in `nodesRef.current`. -/
def targetCount1 (cfg : Cfg) (w h : ℕ) : ℕ :=
  if cfg.prefersReducedMotion then 0 else nodeCount1 cfg.isMobileMode w h

/-- The component's mutable state: the particle array, the allocation
counter modelling object identity, and the pending animation-frame handle
(`animationRef.current`). -/
structure EngineState where
  nodes : List Node
  nextId : ℕ
  pending : Option ℕ
deriving DecidableEq, Repr

/-- `handleResize` (source lines 162-165): `resizeCanvas()` establishes the
new backing dimensions `w × h`, then `createNodes()` rebuilds the particle
array from scratch. -/
def handleResize1 (cfg : Cfg) (w h : ℕ) (sample : ℕ → NodeData)
    (s : EngineState) : EngineState :=
  { nodes := createNodes1 cfg w h sample s.nextId
    nextId := s.nextId + targetCount1 cfg w h
    pending := s.pending }

/-- The two values of `document.visibilityState` the handler inspects. -/
inductive Visibility where
  | hidden
  | visible
deriving DecidableEq, Repr

/-- `onVisibility` (source lines 167-173): on `hidden`, cancel the pending
frame handle if one is set; on `visible`, schedule a new frame (`newHandle`
is the handle `requestAnimationFrame` returns).  Nothing else in the state
is touched. -/
def onVisibility (vis : Visibility) (newHandle : ℕ) (s : EngineState) :
    EngineState :=
  match vis with
  | Visibility.hidden =>
      match s.pending with
      | some _ => { s with pending := none }
      | none => s
  | Visibility.visible => { s with pending := some newHandle }

/-- C3: under the reduced-motion signal, `createNodes` produces the empty
particle set, and an execution of the render-loop body leaves the particle
array untouched and performs only the canvas clear — no particle update, no
connection stroke, no node fill — regardless of device tier. -/
theorem reduced_motion_override (cfg : Cfg) (w h : ℕ) (sample : ℕ → NodeData)
    (startId : ℕ) (cw ch dt : ℚ) (ns : List Node)
    (hrm : cfg.prefersReducedMotion = true) :
    createNodes1 cfg w h sample startId = [] ∧
    (animateFrame1 cfg cw ch dt ns).1 = ns ∧
    (animateFrame1 cfg cw ch dt ns).2 = [DrawOp.clearRect cw ch] := by
  rw [createNodes1, if_pos hrm, animateFrame1, if_pos hrm]
  exact ⟨rfl, rfl, rfl⟩

/-- Witness for C3 on a concrete reduced-motion configuration. -/
theorem reduced_motion_override_witness :
    (⟨true, true⟩ : Cfg).prefersReducedMotion = true ∧
    (createNodes1 ⟨true, true⟩ 640 480 (fun _ => ⟨1, 2, 3, 4, Shape.circle⟩) 0 = [] ∧
     (animateFrame1 ⟨true, true⟩ 640 480 (1/60) []).1 = [] ∧
     (animateFrame1 ⟨true, true⟩ 640 480 (1/60) []).2 = [DrawOp.clearRect 640 480]) :=
  ⟨rfl, reduced_motion_override ⟨true, true⟩ 640 480
    (fun _ => ⟨1, 2, 3, 4, Shape.circle⟩) 0 640 480 (1/60) [] rfl⟩

/-- C8: a resize event fully regenerates the particle array — its length is
the target count freshly computed for the new dimensions, and (given that
the allocation counter dominates every existing node's tag) none of the
previous particle objects appears in the new array. -/
theorem resize_regenerates (cfg : Cfg) (w h : ℕ) (sample : ℕ → NodeData)
    (s : EngineState) (hwf : ∀ o ∈ s.nodes, o.id < s.nextId) :
    (handleResize1 cfg w h sample s).nodes.length = targetCount1 cfg w h ∧
    ∀ n ∈ (handleResize1 cfg w h sample s).nodes, ∀ o ∈ s.nodes, n.id ≠ o.id := by
  constructor
  · rw [handleResize1]
    rw [createNodes1, targetCount1]
    rcases hp : cfg.prefersReducedMotion with _ | _
    · simp
    · simp
  · intro n hn o ho
    have hid : s.nextId ≤ n.id := by
      rw [handleResize1] at hn
      simp only [createNodes1] at hn
      rcases hp : cfg.prefersReducedMotion with _ | _ <;> rw [hp] at hn
      · simp only [Bool.false_eq_true, if_false] at hn
        rcases List.mem_map.mp hn with ⟨i, _, hi⟩
        rw [← hi]
        exact Nat.le_add_right _ _
      · simp at hn
    have ho' : o.id < s.nextId := hwf o ho
    omega

/-- Witness for C8: a one-node state resized to a 1000 × 85 surface. -/
theorem resize_regenerates_witness :
    (∀ o ∈ ([⟨0, 1, 1, 1, 1, [], Shape.circle⟩] : List Node), o.id < 1) ∧
    (handleResize1 ⟨false, false⟩ 1000 85 (fun _ => ⟨1, 2, 3, 4, Shape.circle⟩)
        ⟨[⟨0, 1, 1, 1, 1, [], Shape.circle⟩], 1, none⟩).nodes.length =
      targetCount1 ⟨false, false⟩ 1000 85 ∧
    ∀ n ∈ (handleResize1 ⟨false, false⟩ 1000 85 (fun _ => ⟨1, 2, 3, 4, Shape.circle⟩)
        ⟨[⟨0, 1, 1, 1, 1, [], Shape.circle⟩], 1, none⟩).nodes,
      ∀ o ∈ ([⟨0, 1, 1, 1, 1, [], Shape.circle⟩] : List Node), n.id ≠ o.id := by
  refine ⟨by decide, ?_⟩
  exact resize_regenerates ⟨false, false⟩ 1000 85
    (fun _ => ⟨1, 2, 3, 4, Shape.circle⟩)
    ⟨[⟨0, 1, 1, 1, 1, [], Shape.circle⟩], 1, none⟩ (by decide)

/-- C9: the visibility handler never touches the particles — for either
transition the particle array (every position, velocity, shape, and the
count) is exactly what it was; `hidden` only clears the pending handle,
`visible` only installs a new one, and a hidden-then-visible round trip
resumes from the identical particle state. -/
theorem visibility_preserves_state (vis : Visibility) (nh nh' : ℕ)
    (s : EngineState) :
    (onVisibility vis nh s).nodes = s.nodes ∧
    (onVisibility vis nh s).nextId = s.nextId ∧
    (onVisibility Visibility.hidden nh s).pending = none ∧
    (onVisibility Visibility.visible nh s).pending = some nh ∧
    (onVisibility Visibility.visible nh'
        (onVisibility Visibility.hidden nh s)).nodes = s.nodes := by
  rcases vis with _ | _ <;> rcases hp : s.pending with _ | k <;>
    simp [onVisibility, hp]

/-- What the mount effect leaves behind: the event listeners it registered,
the particle array, whether an animation frame was scheduled, and the draw
operations of the first frame, if any. -/
structure SetupResult where
  listeners : List String
  nodes : List Node
  scheduled : Bool
  drawOps : List DrawOp
deriving DecidableEq, Repr

/-- The result of the effect's early returns: nothing registered, nothing
created, nothing scheduled, nothing drawn. -/
def noopSetup : SetupResult :=
  { listeners := [], nodes := [], scheduled := false, drawOps := [] }

/-- The mount effect (source lines 19-184, identical gating in the second
variant at lines 212-217): return silently when `canvasRef.current` is
absent or `getContext('2d')` yields null (both modelled as `Option`s);
otherwise size the canvas, create the nodes, run the first `animate` frame
unless reduced motion is on, and register the resize and visibility
listeners.  The function is total: no error value exists. -/
def setupEffect (cfg : Cfg) (canvas : Option (ℕ × ℕ)) (ctx : Option Unit)
    (sample : ℕ → NodeData) (dt : ℚ) : SetupResult :=
  match canvas with
  | none => noopSetup
  | some wh =>
    match ctx with
    | none => noopSetup
    | some _ =>
      if cfg.prefersReducedMotion then
        { listeners := ["resize", "visibilitychange"]
          nodes := createNodes1 cfg wh.1 wh.2 sample 0
          scheduled := false
          drawOps := [] }
      else
        { listeners := ["resize", "visibilitychange"]
          nodes := (animateFrame1 cfg wh.1 wh.2 dt
            (createNodes1 cfg wh.1 wh.2 sample 0)).1
          scheduled := true
          drawOps := (animateFrame1 cfg wh.1 wh.2 dt
            (createNodes1 cfg wh.1 wh.2 sample 0)).2 }

/-- C10: when the drawing surface cannot be acquired — the canvas element is
absent or its 2D context is null — the mount effect is a silent no-op: no
listener registered, no particle created, no frame scheduled, nothing
drawn, and no error raised (the embedding is a total function with no error
outcome). -/
theorem surface_failure_noop (cfg : Cfg) (canvas : Option (ℕ × ℕ))
    (ctx : Option Unit) (sample : ℕ → NodeData) (dt : ℚ)
    (hfail : canvas = none ∨ ctx = none) :
    setupEffect cfg canvas ctx sample dt = noopSetup := by
  rcases hfail with hc | hx
  · rw [hc]; rfl
  · rcases canvas with _ | wh
    · rfl
    · rw [hx]; rfl

/-- Witness for C10 with an absent 2D context. -/
theorem surface_failure_noop_witness :
    ((some (640, 480) : Option (ℕ × ℕ)) = none ∨ (none : Option Unit) = none) ∧
    setupEffect ⟨false, false⟩ (some (640, 480)) none
      (fun _ => ⟨1, 2, 3, 4, Shape.circle⟩) (1/60) = noopSetup :=
  ⟨Or.inr rfl, surface_failure_noop ⟨false, false⟩ (some (640, 480)) none
    (fun _ => ⟨1, 2, 3, 4, Shape.circle⟩) (1/60) (Or.inr rfl)⟩

end AnimatedBackground
